import Mathlib

/-
  Verification of the Orchestration and Delegation Engine of the hederaai
  repository.

  The embedding below is a shallow translation of the TypeScript sources:
  - src/services/agents/agentUtils.ts   (ConversationContext, AgentResponse,
    Action, callAgent, extractJsonFromResponse)
  - src/services/agents/router.ts       (routeRequest V2, its inline
    delegation and synthesis step, initializeContext)
  - src/unnamed/part_013                (router V3: processAgentResponse, the
    recursive delegation loop with the pause check)
  - src/services/agents/generalAgent.ts (the planning worker phase choice)

  JavaScript objects used as string-keyed records are embedded as association
  lists of (key, JVal); property access on a missing key yields JVal.undefined,
  matching the undefined value of JavaScript, and truthiness follows the
  JavaScript rules.  Worker lookup and execution happen through a
  dynamic module load in the source, so every router-level definition is
  parameterized by an implementation oracle of type AgentImpl; an Except.error result of the
  oracle models the import or the worker execution throwing.
-/

namespace Hedera

/-- The status field of ConversationContext (router.ts line 17). -/
inductive CtxStatus where
  | pending
  | awaiting_user_input
  | delegating
  | complete
  | failed
  deriving DecidableEq, Repr

/-- The status field of AgentResponse (agentUtils.ts line 22). -/
inductive RespStatus where
  | DELEGATING
  | AWAITING_INPUT
  | COMPLETE
  | ERROR
  deriving DecidableEq, Repr

/-- One delegation task: the payload shape agent/prompt used by the DELEGATE
and DELEGATE_PARALLEL actions (agentUtils.ts lines 45-52). -/
structure DelegTask where
  agent : String
  prompt : String
  deriving DecidableEq, Repr

mutual

/-- A JavaScript value, as stored in the collected_info bag and in the ui
field.  The constructor undefined models the undefined value (in particular, access of an absent
key); responses models an array of AgentResponse values, the shape the
routers store under the specialist results key. -/
inductive JVal where
  | undefined
  | jnull
  | str (s : String)
  | num (n : Int)
  | boolv (b : Bool)
  | arr (xs : List JVal)
  | obj (fields : List (String × JVal))
  | responses (rs : List AgentResponse)

/-- The Action tagged union (agentUtils.ts lines 39-69).  The client-directed
verbs carry payloads the engine treats as opaque JVal data. -/
inductive Action where
  | COMPLETE_GOAL
  | REQUEST_USER_INPUT
  | DELEGATE (payload : DelegTask)
  | DELEGATE_PARALLEL (payload : List DelegTask)
  | SAVE_CREDENTIALS (payload : JVal)
  | UPDATE_LONG_TERM_MEMORY (payload : JVal)
  | EXECUTE_HEDERA_TX (payload : JVal)

/-- The ConversationContext record (router.ts lines 15-21). -/
inductive ConversationContext where
  | mk (goal : Option String) (status : CtxStatus)
      (collected_info : List (String × JVal))
      (call_stack : List String) (history : List String)

/-- The AgentResponse record, the universal agent response protocol
(agentUtils.ts lines 16-35). -/
inductive AgentResponse where
  | mk (status : RespStatus) (speech : String) (ui : JVal) (action : Action)
      (context : ConversationContext)

end

def ConversationContext.goal : ConversationContext → Option String
  | .mk g _ _ _ _ => g

def ConversationContext.status : ConversationContext → CtxStatus
  | .mk _ s _ _ _ => s

def ConversationContext.collected_info : ConversationContext → List (String × JVal)
  | .mk _ _ ci _ _ => ci

def ConversationContext.call_stack : ConversationContext → List String
  | .mk _ _ _ cs _ => cs

def ConversationContext.history : ConversationContext → List String
  | .mk _ _ _ _ h => h

def AgentResponse.status : AgentResponse → RespStatus
  | .mk s _ _ _ _ => s

def AgentResponse.speech : AgentResponse → String
  | .mk _ sp _ _ _ => sp

def AgentResponse.ui : AgentResponse → JVal
  | .mk _ _ u _ _ => u

def AgentResponse.action : AgentResponse → Action
  | .mk _ _ _ a _ => a

def AgentResponse.context : AgentResponse → ConversationContext
  | .mk _ _ _ _ c => c

/-- JavaScript truthiness of a JVal: undefined, null, false, the empty string
and 0 are falsy; every array and object (including empty ones) is truthy. -/
def JVal.truthy : JVal → Bool
  | .undefined => false
  | .jnull => false
  | .str s => s != ""
  | .num n => n != 0
  | .boolv b => b
  | .arr _ => true
  | .obj _ => true
  | .responses _ => true

/-- Property access obj[k] on a string-keyed record: the stored value, or
undefined when the key is absent. -/
def infoGet (info : List (String × JVal)) (k : String) : JVal :=
  match info.find? (fun p => p.1 == k) with
  | some p => p.2
  | none => .undefined

/-- The object spread update of one key, as in the pattern
of spreading an info object and then overriding key k with value v. -/
def infoSet (info : List (String × JVal)) (k : String) (v : JVal) :
    List (String × JVal) :=
  info.filter (fun p => p.1 != k) ++ [(k, v)]

/-- The environment of executable workers.  The source resolves an agent name
with a dynamic import and runs new agentModule.default().execute(prompt,
context); an Except.error models the import or the execution throwing. -/
def AgentImpl : Type :=
  String → String → ConversationContext → Except String AgentResponse

/-- callAgent (agentUtils.ts lines 82-110): run the named worker; on any
throw, return the standardized error envelope instead of propagating. -/
def callAgent (impl : AgentImpl) (agentName : String) (prompt : String)
    (context : ConversationContext) : AgentResponse :=
  match impl agentName prompt context with
  | .ok r => r
  | .error _ =>
    .mk .ERROR
      "My apologies, a specialist component failed to respond. Please try again."
      (.obj [("type", .str "TEXT"),
             ("props", .obj [("title", .str "Agent Execution Error"),
                             ("text", .str ("Error in agent: " ++ agentName ++ "."))])])
      .COMPLETE_GOAL
      (.mk context.goal .failed context.collected_info context.call_stack
        (context.history ++ ["Agent " ++ agentName ++ " failed to execute."]))

/-- initializeContext (router.ts lines 100-124), the context sanitizer: a
fresh context carrying over only the allow-listed keys name, accountId and
long_term_memory from the existing info, plus the new originalPrompt.  The
goal is derived from the agent name (callers always pass a slash-separated
name, so the index [1] of the split is defined).  In the source existingInfo
is a defaulted parameter; the caller that omits it is embedded as passing the
empty record. -/
def initializeContext (agentName : String) (prompt : String)
    (existingInfo : List (String × JVal)) : ConversationContext :=
  let preservedInfo : List (String × JVal) :=
    [("name", infoGet existingInfo "name"),
     ("accountId", infoGet existingInfo "accountId"),
     ("long_term_memory", infoGet existingInfo "long_term_memory")]
  .mk (some ((((agentName.splitOn "/").getD 1 "").replace "Agent" "")))
    .pending
    (preservedInfo ++ [("originalPrompt", .str prompt)])
    [agentName]
    ["User initiated goal with prompt: \"" ++ prompt ++ "\""]

/-- The normalization of a delegation action to its task list, as in the
delegation branch of both routers: a DELEGATE action wraps its single payload
in a one-element list, DELEGATE_PARALLEL passes its payload through, and any
other action is not a delegation. -/
def Action.delegationTasks : Action → Option (List DelegTask)
  | .DELEGATE payload => some [payload]
  | .DELEGATE_PARALLEL payload => some payload
  | _ => none

/-- The runtime failure the router itself can raise; reading a property of a
null value raises a TypeError in JavaScript. -/
inductive JsRuntimeError where
  | nullPropertyAccess (prop : String)
  deriving DecidableEq, Repr

/-- The gatekeeper condition of router.ts line 27: no context at all, or a
context whose collected_info.accountId is falsy. -/
def isNewOrUnauthenticated : Option ConversationContext → Bool
  | none => true
  | some c => ! (infoGet c.collected_info "accountId").truthy

/-- The execution and synthesis step inlined in routeRequest (router.ts lines
54-91): a delegation action fans its tasks out (each task runs against the
same plan context), always aggregates every result under the
specialist_results key, and calls the general agent once for synthesis; a
non-delegation action is returned unchanged.  Note this V2 loop has no pause
check and no recursion: the synthesis response is returned as is. -/
def executePlan (impl : AgentImpl) (prompt : String)
    (planResponse : AgentResponse) : AgentResponse :=
  match planResponse.action.delegationTasks with
  | none => planResponse
  | some tasks =>
    if tasks.isEmpty then
      .mk planResponse.status planResponse.speech planResponse.ui
        .COMPLETE_GOAL planResponse.context
    else
      let specialistResults :=
        tasks.map (fun task => callAgent impl task.agent task.prompt planResponse.context)
      let synthesisContext : ConversationContext :=
        .mk planResponse.context.goal .pending
          (infoSet planResponse.context.collected_info "specialist_results"
            (.responses specialistResults))
          planResponse.context.call_stack
          (planResponse.context.history ++
            ["All specialist tasks completed. Preparing for synthesis."])
      callAgent impl "general/generalAgent" prompt synthesisContext

/-- routeRequest (router.ts lines 24-92, architecture V2).  Rule order is the
order of the source: the onboarding gate fires only when the state is new or
unauthenticated AND the prompt is empty; a context in awaiting_user_input is
continued with the last call-stack agent and the unmodified context; any
other turn is a new request that sanitizes the context and goes to the
general agent for planning, then through the inline execution step.  When the
context is null and the prompt non-empty, the source falls past both guards
and reads context.collected_info of null at line 50, a TypeError. -/
def routeRequest (impl : AgentImpl) (prompt : String)
    (context : Option ConversationContext) :
    Except JsRuntimeError AgentResponse :=
  if isNewOrUnauthenticated context && (prompt == "") then
    let onboardingContext :=
      initializeContext "utility/onboardingAgent" "Begin Onboarding" []
    .ok (callAgent impl "utility/onboardingAgent" "Begin Onboarding" onboardingContext)
  else
    match context with
    | some c =>
      if c.status == .awaiting_user_input then
        let activeAgentName := (c.call_stack.getLast?).getD "undefined"
        .ok (callAgent impl activeAgentName prompt c)
      else
        let planContext :=
          initializeContext "general/generalAgent" prompt c.collected_info
        .ok (executePlan impl prompt (callAgent impl "general/generalAgent" prompt planContext))
    | none =>
      .error (.nullPropertyAccess "collected_info")

/-- processAgentResponse (src/unnamed/part_013 lines 65-119, architecture
V3), the recursive delegation execution loop, embedded with an explicit
recursion budget: the source recurses unconditionally on the resumed
response, so fuel 0 with a still-delegating resumed response yields none
(the source would keep running past that depth).  A non-delegation response
is returned unchanged; an empty task list forces COMPLETE / COMPLETE_GOAL;
a batch containing an AWAITING_INPUT result returns that result immediately,
before the resume step; otherwise the aggregated results are written under
specialist_results and the original delegator (the last call-stack entry of
the delegating response) is called back and its response processed
recursively. -/
def processAgentResponse (impl : AgentImpl) (fuel : Nat)
    (agentResponse : AgentResponse) (originalPrompt : String) :
    Option AgentResponse :=
  match agentResponse.action.delegationTasks with
  | none => some agentResponse
  | some tasks =>
    if tasks.isEmpty then
      some (.mk .COMPLETE agentResponse.speech agentResponse.ui
        .COMPLETE_GOAL agentResponse.context)
    else
      let specialistResults :=
        tasks.map (fun task => callAgent impl task.agent task.prompt agentResponse.context)
      match specialistResults.find? (fun res => res.status == RespStatus.AWAITING_INPUT) with
      | some pausingSpecialist => some pausingSpecialist
      | none =>
        let resumeContext : ConversationContext :=
          .mk agentResponse.context.goal .pending
            (infoSet agentResponse.context.collected_info "specialist_results"
              (.responses specialistResults))
            agentResponse.context.call_stack
            (agentResponse.context.history ++
              ["All specialist tasks completed. Preparing to resume."])
        let resumingAgentName :=
          (agentResponse.context.call_stack.getLast?).getD "undefined"
        match fuel with
        | 0 => none
        | n + 1 =>
          processAgentResponse impl n
            (callAgent impl resumingAgentName originalPrompt resumeContext)
            originalPrompt

/-- The phase choice of GeneralAgent.execute (generalAgent.ts line 12): the
synthesis phase is entered exactly when collected_info.parallel_results is
truthy; otherwise the planning phase runs. -/
def generalAgentEntersSynthesis (context : ConversationContext) : Bool :=
  (infoGet context.collected_info "parallel_results").truthy

/-- The index of the last occurrence of c in s, if any. -/
def lastIdxOf (c : Char) (s : List Char) : Option Nat :=
  (s.reverse.findIdx? (fun d => d == c)).map (fun i => s.length - 1 - i)

/-- One attempt of the regex engine at the current position, for the pattern
of an opening brace, any characters, a closing brace, with the middle
greedy: succeeds when the head is an opening brace with a closing brace
somewhere after it, and then consumes up to the last closing brace. -/
def regexTryAt : List Char → Option (List Char)
  | [] => none
  | c :: rest =>
    if c == '{' then (lastIdxOf '}' rest).map (fun j => c :: rest.take (j + 1))
    else none

/-- The leftmost match of the regex of agentUtils.ts line 122: try each start
position left to right, greedy at the first position that matches. -/
def jsMatchBrace : List Char → Option (List Char)
  | [] => none
  | c :: rest =>
    match regexTryAt (c :: rest) with
    | some m => some m
    | none => jsMatchBrace rest

/-- extractJsonFromResponse (agentUtils.ts lines 120-130): the first regex
match, or a thrown error when the string has no match. -/
def extractJsonFromResponse (llmResponse : String) : Except String String :=
  match jsMatchBrace llmResponse.data with
  | some jsonMatch => .ok (String.mk jsonMatch)
  | none => .error "Could not find a valid JSON object in the LLM response."

/-- Modelled from the spec: the scanner for the body of the first balanced
JSON object, tracking brace depth; returns the consumed characters up to and
including the brace that closes depth 1. -/
def balancedSpan : Nat → List Char → Option (List Char)
  | _, [] => none
  | depth, c :: rest =>
    if c == '}' then
      if depth == 1 then some [c]
      else (balancedSpan (depth - 1) rest).map (fun tl => c :: tl)
    else if c == '{' then (balancedSpan (depth + 1) rest).map (fun tl => c :: tl)
    else (balancedSpan depth rest).map (fun tl => c :: tl)

/-- Modelled from the spec: the first balanced JSON object contained in the
string, i.e. the span from the first opening brace to its matching closing
brace (section 6 of the spec: extract the first balanced JSON object). -/
def firstBalancedObject : List Char → Option (List Char)
  | [] => none
  | c :: rest =>
    if c == '{' then (balancedSpan 1 rest).map (fun tl => c :: tl)
    else firstBalancedObject rest

/-! Concrete demonstration values used by witnesses and counterexamples. -/

/-- A worker environment whose every agent answers COMPLETE with its own name
as the speech, echoing the context it was invoked with. -/
def nameImpl : AgentImpl :=
  fun agentName _ ctx => .ok (.mk .COMPLETE agentName .undefined .COMPLETE_GOAL ctx)

/-- A worker environment where the general agent echoes the context it was
invoked with and every specialist completes, reporting its prompt. -/
def echoImpl : AgentImpl := fun agentName prompt ctx =>
  if agentName == "general/generalAgent" then
    .ok (.mk .COMPLETE "echo" .undefined .COMPLETE_GOAL ctx)
  else
    .ok (.mk .COMPLETE ("done: " ++ prompt) .undefined .COMPLETE_GOAL ctx)

/-- A worker environment where every invocation throws. -/
def failImpl : AgentImpl := fun _ _ _ => .error "module not found"

/-- Collected info of a fully onboarded user. -/
def demoAuthInfo : List (String × JVal) :=
  [("name", .str "Alice"), ("accountId", .str "0.0.1234")]

/-- A sanitized planning context for an onboarded user. -/
def planCtx : ConversationContext :=
  initializeContext "general/generalAgent" "show my balance" demoAuthInfo

/-- A planning response delegating one task to the balance worker. -/
def planDelegResponse : AgentResponse :=
  .mk .DELEGATING "Okay, let me check." .undefined
    (.DELEGATE ⟨"wallet/balanceAgent", "get the balance"⟩) planCtx

/-- The context of a synthetic self-delegating worker. -/
def loopCtx : ConversationContext :=
  .mk (some "loop") .delegating [] ["loop/loopAgent"] []

/-- The response of a synthetic worker that always delegates to itself. -/
def loopResponse : AgentResponse :=
  .mk .DELEGATING "looping" .undefined (.DELEGATE ⟨"loop/loopAgent", "again"⟩) loopCtx

/-- A worker environment containing only the self-delegating worker. -/
def loopImpl : AgentImpl := fun agentName _ _ =>
  if agentName == "loop/loopAgent" then .ok loopResponse else .error "Unknown agent"

/-- The delegation loop never yields a result on the self-delegating worker,
for any recursion budget: each round reproduces the same delegating response.
Shared by the C7 theorem and counterexample. -/
theorem loopResponse_no_result : ∀ (fuel : Nat) (p : String),
    processAgentResponse loopImpl fuel loopResponse p = none := by
  intro fuel
  induction fuel with
  | zero => intro p; rfl
  | succ n ih => intro p; exact ih p

/-! Claims -/

/-- Claim C1 (code bug evaluation): after the delegation round of the V2
router completes one task, the synthesis context it hands back to the general
agent does contain the specialist_results key it wrote, yet
GeneralAgent.execute does not enter the synthesis phase on that context,
because it tests the parallel_results key, which no component of the
repository ever writes. -/
theorem generalAgent_misses_router_results_key :
    infoGet (executePlan echoImpl "show my balance" planDelegResponse).context.collected_info
        "specialist_results"
      = .responses [.mk .COMPLETE "done: get the balance" .undefined .COMPLETE_GOAL planCtx] ∧
    generalAgentEntersSynthesis
        (executePlan echoImpl "show my balance" planDelegResponse).context = false :=
  ⟨rfl, rfl⟩

/-- Claim C7 (amended): the delegation loop of the V3 router imposes no depth
bound and raises no exhaustion error: on a synthetic worker that always
delegates to itself, every finite recursion budget is exhausted with the loop
still delegating, so the loop never terminates. -/
theorem delegation_loop_unbounded : ∀ (fuel : Nat) (p : String),
    processAgentResponse loopImpl fuel loopResponse p = none :=
  fun fuel p => loopResponse_no_result fuel p

/-- Claim C7 (counterexample): at the recommended depth 25 the loop on the
self-delegating worker has produced no envelope at all - in particular no
DelegationExhaustedError error envelope exists within the claimed bound. -/
theorem delegation_loop_unbounded_at_25 :
    processAgentResponse loopImpl 25 loopResponse "p" = none :=
  loopResponse_no_result 25 "p"

/-- Claim C9: the delegation execution loop returns any envelope whose action
is COMPLETE_GOAL or REQUEST_USER_INPUT unchanged, for every worker
environment and every recursion budget: a non-delegation action is a pure
pass-through with no further worker invocation. -/
theorem terminal_action_passthrough (impl : AgentImpl) (fuel : Nat)
    (resp : AgentResponse) (originalPrompt : String)
    (h : resp.action = .COMPLETE_GOAL ∨ resp.action = .REQUEST_USER_INPUT) :
    processAgentResponse impl fuel resp originalPrompt = some resp := by
  rcases h with h | h <;> rw [processAgentResponse, h] <;> rfl

/-- Witness for claim C9 at a concrete COMPLETE_GOAL envelope. -/
theorem terminal_action_passthrough_check :
    processAgentResponse nameImpl 3
      (.mk .COMPLETE "done" .undefined .COMPLETE_GOAL loopCtx) "orig"
      = some (.mk .COMPLETE "done" .undefined .COMPLETE_GOAL loopCtx) :=
  terminal_action_passthrough nameImpl 3
    (.mk .COMPLETE "done" .undefined .COMPLETE_GOAL loopCtx) "orig" (Or.inl rfl)

/-- Claim C5: whenever worker instantiation or invocation throws (including
an unknown worker name, whose dynamic import fails), callAgent does not
propagate the raw error: it returns the standardized envelope with status
ERROR, the fixed user-safe speech, action COMPLETE_GOAL, and a context equal
to the input context except that status becomes failed and one failure note
is appended to history; goal, collected_info and call_stack are unchanged. -/
theorem callAgent_converts_failure (impl : AgentImpl)
    (agentName prompt : String) (context : ConversationContext) (e : String)
    (h : impl agentName prompt context = .error e) :
    callAgent impl agentName prompt context =
      .mk .ERROR
        "My apologies, a specialist component failed to respond. Please try again."
        (.obj [("type", .str "TEXT"),
               ("props", .obj [("title", .str "Agent Execution Error"),
                               ("text", .str ("Error in agent: " ++ agentName ++ "."))])])
        .COMPLETE_GOAL
        (.mk context.goal .failed context.collected_info context.call_stack
          (context.history ++ ["Agent " ++ agentName ++ " failed to execute."])) := by
  rw [callAgent, h]

/-- Witness for claim C5 at a concrete always-throwing environment. -/
theorem callAgent_converts_failure_check :
    callAgent failImpl "wallet/balanceAgent" "check" planCtx =
      .mk .ERROR
        "My apologies, a specialist component failed to respond. Please try again."
        (.obj [("type", .str "TEXT"),
               ("props", .obj [("title", .str "Agent Execution Error"),
                               ("text", .str "Error in agent: wallet/balanceAgent.")])])
        .COMPLETE_GOAL
        (.mk planCtx.goal .failed planCtx.collected_info planCtx.call_stack
          (planCtx.history ++ ["Agent wallet/balanceAgent failed to execute."])) :=
  callAgent_converts_failure failImpl "wallet/balanceAgent" "check" planCtx
    "module not found" rfl

/-- Claim C6: for a prior context with a truthy accountId, status
awaiting_user_input and a call stack ending in worker W, routing any next
prompt invokes W with the raw prompt and the prior context completely
unmodified (no sanitization), and returns the invocation result: every
collected_info field set before pausing is still visible to W. -/
theorem continuation_unmodified (impl : AgentImpl) (prompt : String)
    (c : ConversationContext) (W : String)
    (hAuth : (infoGet c.collected_info "accountId").truthy = true)
    (hStatus : c.status = .awaiting_user_input)
    (hStack : c.call_stack.getLast? = some W) :
    routeRequest impl prompt (some c) = .ok (callAgent impl W prompt c) := by
  rw [routeRequest]
  simp only [isNewOrUnauthenticated, hAuth, Bool.not_true, Bool.false_and,
    if_neg Bool.false_ne_true, hStatus, hStack]
  rfl

/-- A context paused mid-onboarding, with worker-private fields present. -/
def pausedCtx : ConversationContext :=
  .mk (some "onboarding") .awaiting_user_input
    (demoAuthInfo ++ [("onboarding_step", .str "ASK_PASSWORD")])
    ["utility/onboardingAgent"] ["asked for password"]

/-- Witness for claim C6 at a concrete paused onboarding context. -/
theorem continuation_unmodified_check :
    routeRequest nameImpl "hunter2" (some pausedCtx)
      = .ok (callAgent nameImpl "utility/onboardingAgent" "hunter2" pausedCtx) :=
  continuation_unmodified nameImpl "hunter2" pausedCtx "utility/onboardingAgent"
    rfl rfl rfl

/-- Claim C10: a non-empty prompt together with a null prior state falls past
the onboarding gate (which requires an empty prompt) and past the
continuation check (which requires a context), and the V2 router then reads
collected_info of the null context: routeRequest raises a raw TypeError
instead of returning an envelope. -/
theorem null_context_raw_typeError (impl : AgentImpl) (prompt : String)
    (h : prompt ≠ "") :
    routeRequest impl prompt none = .error (.nullPropertyAccess "collected_info") := by
  rw [routeRequest]
  simp only [isNewOrUnauthenticated, Bool.true_and, beq_eq_false_iff_ne.mpr h,
    if_neg Bool.false_ne_true]

/-- Witness for claim C10 at a concrete first-turn prompt. -/
theorem null_context_raw_typeError_check :
    routeRequest nameImpl "what is my balance" none
      = .error (.nullPropertyAccess "collected_info") :=
  null_context_raw_typeError nameImpl "what is my balance" (by decide)

/-- A non-null context of an unauthenticated user: no accountId collected. -/
def unauthCtx : ConversationContext :=
  .mk none .pending [("name", .str "Bob")] [] []

/-- Claim C3 (counterexample): with an unauthenticated prior state and the
non-empty prompt hello, the router does not invoke the bootstrap worker at
all: the turn is handled by the general agent (in the environment where every
worker answers with its own name, the returned speech names the general
agent), so a worker other than the bootstrap worker observes the
unauthenticated state. -/
theorem bootstrap_gate_bypassed_on_nonempty_prompt :
    routeRequest nameImpl "hello" (some unauthCtx)
      = .ok (.mk .COMPLETE "general/generalAgent" .undefined .COMPLETE_GOAL
          (initializeContext "general/generalAgent" "hello" unauthCtx.collected_info)) :=
  rfl

/-- Claim C3 (amended): the bootstrap gate fires only on an empty prompt:
for every request whose prior state is null or lacks a truthy accountId, the
router invokes the bootstrap onboarding worker (before any other worker,
with the synthetic prompt Begin Onboarding and a fresh context) exactly when
the prompt is empty; a non-empty unauthenticated prompt bypasses the gate. -/
theorem bootstrap_gate_fires_on_empty_prompt (impl : AgentImpl)
    (context : Option ConversationContext)
    (h : isNewOrUnauthenticated context = true) :
    routeRequest impl "" context
      = .ok (callAgent impl "utility/onboardingAgent" "Begin Onboarding"
          (initializeContext "utility/onboardingAgent" "Begin Onboarding" [])) := by
  rw [routeRequest.eq_def, h]
  rfl

/-- Witness for the amended claim C3 at the very first call of a session. -/
theorem bootstrap_gate_fires_on_empty_prompt_check :
    routeRequest nameImpl "" none
      = .ok (callAgent nameImpl "utility/onboardingAgent" "Begin Onboarding"
          (initializeContext "utility/onboardingAgent" "Begin Onboarding" [])) :=
  bootstrap_gate_fires_on_empty_prompt nameImpl none rfl

/-- Claim C2: in any delegation batch (DELEGATE or DELEGATE_PARALLEL) whose
results contain an AWAITING_INPUT envelope, the V3 delegation loop returns
the found paused envelope itself, unchanged, for every recursion budget: the
paused result is one of the batch results, it has status AWAITING_INPUT, and
no resume or synthesis invocation happens (the other results are dropped). -/
theorem pause_preemption (impl : AgentImpl) (fuel : Nat)
    (originalPrompt : String) (resp pausing : AgentResponse)
    (tasks : List DelegTask)
    (hTasks : resp.action.delegationTasks = some tasks)
    (hne : tasks ≠ [])
    (hfind : (tasks.map (fun task => callAgent impl task.agent task.prompt resp.context)).find?
        (fun res => res.status == RespStatus.AWAITING_INPUT) = some pausing) :
    processAgentResponse impl fuel resp originalPrompt = some pausing ∧
    pausing ∈ tasks.map (fun task => callAgent impl task.agent task.prompt resp.context) ∧
    pausing.status = .AWAITING_INPUT := by
  refine ⟨?_, List.mem_of_find?_eq_some hfind, ?_⟩
  · have hE : tasks.isEmpty = false := by simp [List.isEmpty_iff, hne]
    rw [processAgentResponse, hTasks]
    simp only [hE, Bool.false_eq_true, if_false, hfind]
  · have hp := List.find?_some hfind
    simpa using hp

/-- A worker environment where the balance worker completes and the history
worker pauses for user input. -/
def mixedImpl : AgentImpl := fun agentName _ ctx =>
  if agentName == "wallet/balanceAgent" then
    .ok (.mk .COMPLETE "Your balance is 10 HBAR." .undefined .COMPLETE_GOAL ctx)
  else if agentName == "wallet/historyAgent" then
    .ok (.mk .AWAITING_INPUT "How many transactions should I show?" .undefined
      .REQUEST_USER_INPUT ctx)
  else .error "Unknown agent"

/-- A planning response fanning out to the balance and history workers. -/
def parallelResponse : AgentResponse :=
  .mk .DELEGATING "Checking both." .undefined
    (.DELEGATE_PARALLEL [⟨"wallet/balanceAgent", "get balance"⟩,
                         ⟨"wallet/historyAgent", "get history"⟩]) planCtx

/-- Witness for claim C2: the history worker pauses, so the loop returns its
envelope although the balance worker succeeded. -/
theorem pause_preemption_check :
    processAgentResponse mixedImpl 7 parallelResponse "show everything"
      = some (.mk .AWAITING_INPUT "How many transactions should I show?" .undefined
          .REQUEST_USER_INPUT planCtx) ∧
    (.mk .AWAITING_INPUT "How many transactions should I show?" .undefined
        .REQUEST_USER_INPUT planCtx : AgentResponse).status = .AWAITING_INPUT :=
  ⟨(pause_preemption mixedImpl 7 "show everything" parallelResponse
      (.mk .AWAITING_INPUT "How many transactions should I show?" .undefined
        .REQUEST_USER_INPUT planCtx)
      [⟨"wallet/balanceAgent", "get balance"⟩, ⟨"wallet/historyAgent", "get history"⟩]
      rfl (by decide) rfl).1,
   rfl⟩

/-- Claim C4: initializing a new goal from any prior collected info yields a
context whose collected info binds the new originalPrompt, takes exactly the
three allow-listed long-lived keys name, accountId and long_term_memory from
the prior info, and yields undefined for every other key: no leftover
specialist_results or worker-private step markers survive sanitization. -/
theorem initializeContext_sanitizes (agentName prompt : String)
    (existingInfo : List (String × JVal)) :
    infoGet (initializeContext agentName prompt existingInfo).collected_info
        "originalPrompt" = .str prompt ∧
    infoGet (initializeContext agentName prompt existingInfo).collected_info
        "name" = infoGet existingInfo "name" ∧
    infoGet (initializeContext agentName prompt existingInfo).collected_info
        "accountId" = infoGet existingInfo "accountId" ∧
    infoGet (initializeContext agentName prompt existingInfo).collected_info
        "long_term_memory" = infoGet existingInfo "long_term_memory" ∧
    ∀ k : String,
      k ∉ (["name", "accountId", "long_term_memory", "originalPrompt"] : List String) →
      infoGet (initializeContext agentName prompt existingInfo).collected_info k
        = .undefined := by
  refine ⟨rfl, rfl, rfl, rfl, ?_⟩
  intro k hk
  simp only [List.mem_cons, List.not_mem_nil, or_false, not_or] at hk
  obtain ⟨h1, h2, h3, h4⟩ := hk
  simp [initializeContext, ConversationContext.collected_info, infoGet,
    List.find?, beq_eq_false_iff_ne.mpr (Ne.symm h1),
    beq_eq_false_iff_ne.mpr (Ne.symm h2),
    beq_eq_false_iff_ne.mpr (Ne.symm h3),
    beq_eq_false_iff_ne.mpr (Ne.symm h4)]

/-- Prior collected info polluted with leftovers of a finished goal. -/
def staleInfo : List (String × JVal) :=
  demoAuthInfo ++
    [("specialist_results", .responses []), ("onboarding_step", .str "ASK_NAME")]

/-- Witness for claim C4: stale specialist_results and the worker-private
onboarding_step marker are dropped while accountId survives. -/
theorem initializeContext_sanitizes_check :
    infoGet (initializeContext "general/generalAgent" "hi" staleInfo).collected_info
        "specialist_results" = .undefined ∧
    infoGet (initializeContext "general/generalAgent" "hi" staleInfo).collected_info
        "onboarding_step" = .undefined ∧
    infoGet (initializeContext "general/generalAgent" "hi" staleInfo).collected_info
        "accountId" = .str "0.0.1234" :=
  ⟨(initializeContext_sanitizes "general/generalAgent" "hi" staleInfo).2.2.2.2
      "specialist_results" (by decide),
   (initializeContext_sanitizes "general/generalAgent" "hi" staleInfo).2.2.2.2
      "onboarding_step" (by decide),
   ((initializeContext_sanitizes "general/generalAgent" "hi" staleInfo).2.2.1).trans rfl⟩

/-! Regex-extraction lemmas for claim C8. -/

/-- A list without a closing brace has no regex match. -/
theorem jsMatchBrace_eq_none_of_no_close : ∀ l : List Char,
    '}' ∉ l → jsMatchBrace l = none := by
  intro l
  induction l with
  | nil => intro _; rfl
  | cons c rest ih =>
    intro h
    have hrest : '}' ∉ rest := fun hm => h (List.mem_cons_of_mem _ hm)
    have hidx : rest.reverse.findIdx? (fun d => d == '}') = none :=
      List.findIdx?_eq_none_iff.mpr
        (fun x hx => beq_eq_false_iff_ne.mpr
          (fun e => hrest (e ▸ List.mem_reverse.mp hx)))
    simp [jsMatchBrace, regexTryAt, lastIdxOf, hidx, ih hrest]

/-- The leftmost-match scan skips any prefix without an opening brace. -/
theorem jsMatchBrace_append_of_no_open : ∀ (pre l : List Char), '{' ∉ pre →
    jsMatchBrace (pre ++ l) = jsMatchBrace l := by
  intro pre
  induction pre with
  | nil => intro l _; rfl
  | cons p rest ih =>
    intro l h
    have hp : (p == '{') = false :=
      beq_eq_false_iff_ne.mpr (fun e => h (e ▸ List.mem_cons_self p rest))
    have hrest : '{' ∉ rest := fun hm => h (List.mem_cons_of_mem _ hm)
    simp [jsMatchBrace, regexTryAt, hp, ih l hrest]

/-- On an opening brace followed by a body ending in a closing brace and a
suffix without closing braces, the greedy match consumes exactly the body. -/
theorem jsMatchBrace_open_body_close : ∀ (mid post t : List Char),
    mid.reverse = '}' :: t → '}' ∉ post →
    jsMatchBrace (('{' :: mid) ++ post) = some ('{' :: mid) := by
  intro mid post t hrev hpost
  have hmidne : mid ≠ [] := by
    intro e; rw [e] at hrev; exact List.noConfusion hrev
  have hlen : 1 ≤ mid.length := by
    cases mid with
    | nil => exact absurd rfl hmidne
    | cons a b => simp
  have hpostidx : post.reverse.findIdx? (fun d => d == '}') = none :=
    List.findIdx?_eq_none_iff.mpr
      (fun x hx => beq_eq_false_iff_ne.mpr
        (fun e => hpost (e ▸ List.mem_reverse.mp hx)))
  have hlast : lastIdxOf '}' (mid ++ post) = some (mid.length - 1) := by
    rw [lastIdxOf, List.reverse_append, List.findIdx?_append, hpostidx, hrev]
    simp only [Option.none_or, List.findIdx?_cons]
    norm_num
    omega
  have htake : (mid ++ post).take (mid.length - 1 + 1) = mid := by
    have he : mid.length - 1 + 1 = mid.length := by omega
    rw [he, List.take_left]
  rw [List.cons_append, jsMatchBrace, regexTryAt]
  simp only [beq_self_eq_true, if_true, hlast, Option.map_some', htake]

/-- A list with no closing brace after its first opening brace has no regex
match at all. -/
theorem jsMatchBrace_eq_none_of_no_pair : ∀ l : List Char,
    '}' ∉ (l.dropWhile (fun c => c != '{')).drop 1 → jsMatchBrace l = none := by
  intro l
  induction l with
  | nil => intro _; rfl
  | cons c rest ih =>
    intro h
    by_cases hc : c = '{'
    · subst hc
      have hdw : (('{' :: rest).dropWhile (fun c => c != '{')) = '{' :: rest := by
        simp [List.dropWhile]
      rw [hdw] at h
      simp only [List.drop_succ_cons, List.drop_zero] at h
      have hidx : rest.reverse.findIdx? (fun d => d == '}') = none :=
        List.findIdx?_eq_none_iff.mpr
          (fun x hx => beq_eq_false_iff_ne.mpr
            (fun e => h (e ▸ List.mem_reverse.mp hx)))
      simp [jsMatchBrace, regexTryAt, lastIdxOf, hidx,
        jsMatchBrace_eq_none_of_no_close rest h]
    · have hcb : (c == '{') = false := beq_eq_false_iff_ne.mpr hc
      have hcbn : (c != '{') = true := by simp [bne, hcb]
      have hdw : ((c :: rest).dropWhile (fun c => c != '{'))
          = rest.dropWhile (fun c => c != '{') := by
        simp [List.dropWhile, hcbn]
      rw [hdw] at h
      simp [jsMatchBrace, regexTryAt, hcb, ih h]

/-- Claim C8 (counterexample): on an input holding two JSON objects,
extractJsonFromResponse returns the span from the first opening brace to the
last closing brace - both objects and the text between them - while the first
balanced JSON object of the same input is just the first object; the two
results differ. -/
theorem extractJson_not_first_balanced :
    extractJsonFromResponse "\x7b\"a\": 1\x7d and \x7b\"b\": 2\x7d"
      = .ok "\x7b\"a\": 1\x7d and \x7b\"b\": 2\x7d" ∧
    firstBalancedObject ("\x7b\"a\": 1\x7d and \x7b\"b\": 2\x7d".data)
      = some ("\x7b\"a\": 1\x7d".data) ∧
    "\x7b\"a\": 1\x7d and \x7b\"b\": 2\x7d" ≠ "\x7b\"a\": 1\x7d" :=
  ⟨rfl, rfl, by decide⟩

/-- Claim C8 (amended): extractJsonFromResponse returns the greedy span from
the first opening brace through the last closing brace; concretely, for every
input decomposable as a prefix without an opening brace, a body that starts
with an opening brace and ends with a closing brace, and a suffix without a
closing brace, it returns exactly that body (hence it tolerates markdown
fences around one object); and for every string in which no closing brace
follows the first opening brace, it throws an error rather than returning a
default. -/
theorem extractJson_greedy_span :
    (∀ pre body post : List Char, '{' ∉ pre → '}' ∉ post →
      body.head? = some '{' → body.getLast? = some '}' →
      extractJsonFromResponse (String.mk (pre ++ body ++ post))
        = .ok (String.mk body)) ∧
    (∀ s : String, '}' ∉ (s.data.dropWhile (fun c => c != '{')).drop 1 →
      extractJsonFromResponse s
        = .error "Could not find a valid JSON object in the LLM response.") := by
  constructor
  · intro pre body post h1 h2 hhead hlast
    obtain ⟨mid, rfl⟩ : ∃ mid, body = '{' :: mid := by
      cases body with
      | nil => exact absurd hhead (by simp)
      | cons b bs =>
        simp only [List.head?_cons, Option.some.injEq] at hhead
        exact ⟨bs, by rw [hhead]⟩
    obtain ⟨t, hrev⟩ : ∃ t, mid.reverse = '}' :: t := by
      have hr : ('{' :: mid).reverse.head? = some '}' := by
        rw [List.head?_reverse]; exact hlast
      rw [List.reverse_cons] at hr
      cases hm : mid.reverse with
      | nil => rw [hm] at hr; simp at hr
      | cons a t =>
        rw [hm] at hr
        simp only [List.cons_append, List.head?_cons, Option.some.injEq] at hr
        exact ⟨t, by rw [hr]⟩
    have hm : jsMatchBrace (String.mk (pre ++ ('{' :: mid) ++ post)).data
        = some ('{' :: mid) := by
      show jsMatchBrace (pre ++ ('{' :: mid) ++ post) = some ('{' :: mid)
      rw [List.append_assoc, jsMatchBrace_append_of_no_open pre _ h1,
        jsMatchBrace_open_body_close mid post t hrev h2]
    rw [extractJsonFromResponse, hm]
  · intro s h
    rw [extractJsonFromResponse, jsMatchBrace_eq_none_of_no_pair s.data h]

/-- Witness for the amended claim C8: a markdown-fenced object is extracted
exactly, and a brace-free string throws. -/
theorem extractJson_greedy_span_check :
    extractJsonFromResponse "```json\n\x7b\"a\": 1\x7d\n```" = .ok "\x7b\"a\": 1\x7d" ∧
    extractJsonFromResponse "no structured output"
      = .error "Could not find a valid JSON object in the LLM response." :=
  ⟨extractJson_greedy_span.1 ("```json\n".data) ("\x7b\"a\": 1\x7d".data) ("\n```".data)
      (by decide) (by decide) rfl rfl,
   extractJson_greedy_span.2 "no structured output" (by decide)⟩

end Hedera
